import Mathlib

/-!
Shallow embedding of the leila-api gateway (`src/server.js`) and proofs about it.

The embedding models the standalone Express server in `server.js` (the package's
`main`): the SQLite tables `bookings`, `jobs` and `api_keys` become lists of
records, the route handlers become pure state-passing functions, and the
in-process `apiStats` object becomes an explicit counter structure.  SQL `REAL`
columns are modelled as exact rationals (no float arithmetic is performed on
them by any handler), `DATETIME` values as natural-number instants supplied by
the caller, and JavaScript division/formatting in the stats handler as exact
rational rounding (the two coincide on every input considered here).
-/

namespace LeilaApi

/-- Status column of the `bookings` table: `pending | confirmed | cancelled`
(schema default `pending`, `server.js` line 110). -/
inductive BookingStatus
  | pending
  | confirmed
  | cancelled
deriving DecidableEq

/-- Request body of `POST /api/bookings` as destructured by the handler
(`server.js` lines 312-316); every field of an Express JSON body may be absent,
hence `Option`. -/
structure BookingFields where
  firstName : Option String
  lastName : Option String
  email : Option String
  phone : Option String
  serviceName : Option String
  preferredDate : Option String
  preferredTime : Option String
  address : Option String
  notes : Option String
deriving DecidableEq

/-- Row of the `bookings` table (`server.js` lines 99-114).  Column values are
`Option`s as in SQL; the `NOT NULL` constraints are enforced at insert time by
`createBooking`. -/
structure Booking where
  id : Nat
  firstName : Option String
  lastName : Option String
  email : Option String
  phone : Option String
  service : Option String
  date : Option String
  time : Option String
  address : Option String
  notes : Option String
  status : BookingStatus
  contractorId : Option Nat
  createdAt : Nat
deriving DecidableEq

/-- Row of the `jobs` table (`server.js` lines 117-126); `price REAL` is
modelled as an exact rational. -/
structure Job where
  id : Nat
  bookingId : Nat
  contractorId : Nat
  status : String
  price : Rat
  createdAt : Nat
deriving DecidableEq

/-- Row of the `api_keys` table (`server.js` lines 129-138). -/
structure ApiKeyRec where
  id : Nat
  key : String
  name : String
  email : String
  usageCount : Nat
  lastUsed : Option Nat
  active : Bool
deriving DecidableEq

/-- The SQLite database: the three tables the claims touch, plus the
`AUTOINCREMENT` counters for `bookings.id` and `jobs.id` (both start at 1). -/
structure Store where
  bookings : List Booking
  jobs : List Job
  apiKeys : List ApiKeyRec
  nextBookingId : Nat
  nextJobId : Nat
deriving DecidableEq

/-- The freshly initialized in-memory database. -/
def emptyStore : Store := ⟨[], [], [], 1, 1⟩

/-- Outcome of `POST /api/bookings` (`server.js` lines 324-335): either the
success JSON carrying `this.lastID` (plus a fixed confirmation message), or the
500 response with body error text `Failed to create booking`. -/
inductive CreateBookingResult
  | success (bookingId : Nat)
  | storageError
deriving DecidableEq

/-- Columns of `bookings` declared `NOT NULL` without a default: the INSERT in
the handler fails exactly when one of these request fields is absent (absent
JS values bind as SQL NULL). -/
def requiredPresent (f : BookingFields) : Bool :=
  f.firstName.isSome && f.lastName.isSome && f.email.isSome && f.serviceName.isSome &&
    f.preferredDate.isSome && f.preferredTime.isSome && f.address.isSome

/-- Handler of `POST /api/bookings` (`server.js` lines 311-337): no input
validation is performed; the body fields are passed straight to the INSERT,
which applies the schema defaults `status='pending'`, `contractor_id=NULL`,
`created_at=now` and either succeeds (response carries the fresh id) or
violates a `NOT NULL` constraint (500 response, no row written). -/
def createBooking (s : Store) (f : BookingFields) (now : Nat) :
    Store × CreateBookingResult :=
  if requiredPresent f then
    let b : Booking :=
      ⟨s.nextBookingId, f.firstName, f.lastName, f.email, f.phone, f.serviceName,
        f.preferredDate, f.preferredTime, f.address, f.notes,
        BookingStatus.pending, none, now⟩
    ({ s with bookings := s.bookings ++ [b], nextBookingId := s.nextBookingId + 1 },
      CreateBookingResult.success s.nextBookingId)
  else
    (s, CreateBookingResult.storageError)

/-- Outcome of `POST /api/jobs/accept` (`server.js` lines 479-506): the success
JSON carrying the new job id, or a 500 on storage failure (unreachable in the
in-memory model: the INSERT has no constraints to violate, since sqlite3 leaves
foreign keys unenforced by default and no PRAGMA enables them, and the UPDATE
cannot fail). -/
inductive ClaimJobResult
  | success (jobId : Nat)
  | storageError
deriving DecidableEq

/-- Handler of `POST /api/jobs/accept` (`server.js` lines 479-506).  It
unconditionally INSERTs a job row with `status='accepted'` (no check that the
booking exists or is pending: foreign keys are unenforced), then UPDATEs
`bookings SET contractor_id = ?, status = 'confirmed' WHERE id = ?`, which
matches zero or one rows and never errors; the response is always the success
JSON with the new job id. -/
def claimJob (s : Store) (bookingId contractorId : Nat) (price : Rat) (now : Nat) :
    Store × ClaimJobResult :=
  let job : Job := ⟨s.nextJobId, bookingId, contractorId, "accepted", price, now⟩
  let s1 : Store := { s with jobs := s.jobs ++ [job], nextJobId := s.nextJobId + 1 }
  let s2 : Store := { s1 with bookings := s1.bookings.map (fun b =>
    if b.id = bookingId then { b with contractorId := some contractorId,
                                      status := BookingStatus.confirmed }
    else b) }
  (s2, ClaimJobResult.success s.nextJobId)

/-- Outcome of the cancel operation. -/
inductive CancelResult
  | ok
  | notFound
deriving DecidableEq

/-- Modelled from the spec: `server.js` exposes no cancel endpoint for the
bookings table, so `Cancel` is taken from spec section 4.1 — "sets
`status=cancelled` regardless of prior state except no-op if already
`cancelled`; idempotent", returning `NotFoundError` when the booking is absent,
and (section 4.5) cancellation of a confirmed booking "does not release
`contractorId`". -/
def cancelBooking (s : Store) (bookingId : Nat) : Store × CancelResult :=
  if s.bookings.any (fun b => b.id == bookingId) then
    ({ s with bookings := s.bookings.map (fun b =>
        if b.id = bookingId then { b with status := BookingStatus.cancelled } else b) },
      CancelResult.ok)
  else
    (s, CancelResult.notFound)

/-- Filter of the `GET /api/jobs/available` query (`server.js` lines 460-467):
`WHERE b.status = 'pending' AND b.contractor_id IS NULL`. -/
def pendingUnclaimed (b : Booking) : Bool :=
  decide (b.status = BookingStatus.pending ∧ b.contractorId = none)

/-- Insertion step of the descending sort keyed by `f` (models SQL
`ORDER BY ... DESC`). -/
def insertDescBy {α : Type} (f : α → Nat) (x : α) : List α → List α
  | [] => [x]
  | y :: ys => if f y ≤ f x then x :: y :: ys else y :: insertDescBy f x ys

/-- Insertion sort, descending by the key `f`. -/
def sortDescBy {α : Type} (f : α → Nat) : List α → List α
  | [] => []
  | x :: xs => insertDescBy f x (sortDescBy f xs)

/-- Handler of `GET /api/jobs/available` (`server.js` lines 459-476): the
pending unclaimed bookings ordered by `created_at DESC`, each paired with its
`bid_count` subquery `(SELECT COUNT(*) FROM jobs WHERE booking_id = b.id)`. -/
def availableJobs (s : Store) : List (Booking × Nat) :=
  (sortDescBy (fun b => b.createdAt) (s.bookings.filter pendingUnclaimed)).map
    (fun b => (b, (s.jobs.filter (fun j => decide (j.bookingId = b.id))).length))

/-- Per-endpoint entry of the in-process `apiStats` object (`server.js`
line 46): `{ count, totalTime, errors }`. -/
structure EndpointStats where
  count : Nat
  totalTime : Nat
  errors : Nat
deriving DecidableEq

/-- The process-wide `apiStats` object (`server.js` lines 32-37); `startTime`
is omitted (only used for the uptime string, which no claim touches). -/
structure ApiStats where
  totalRequests : Nat
  endpoints : List (String × EndpointStats)
  errors : Nat
deriving DecidableEq

/-- Entry half of the monitoring middleware (`server.js` lines 39-48), run
before any handler: increments `totalRequests`, creates the endpoint record if
missing, and increments its `count`. -/
def recordRequest (st : ApiStats) (endpoint : String) : ApiStats :=
  if st.endpoints.any (fun e => e.1 == endpoint) then
    { st with totalRequests := st.totalRequests + 1,
              endpoints := st.endpoints.map (fun e =>
                if e.1 == endpoint then (e.1, { e.2 with count := e.2.count + 1 }) else e) }
  else
    { st with totalRequests := st.totalRequests + 1,
              endpoints := st.endpoints ++ [(endpoint, ⟨1, 0, 0⟩)] }

/-- Exit half of the monitoring middleware, the wrapped `res.send`
(`server.js` lines 51-63): adds the duration to the endpoint `totalTime` and,
when the status code is at least 400, increments both error counters. -/
def recordCompletion (st : ApiStats) (endpoint : String) (statusCode durationMs : Nat) :
    ApiStats :=
  let st1 : ApiStats := { st with endpoints := st.endpoints.map (fun e =>
    if e.1 == endpoint then (e.1, { e.2 with totalTime := e.2.totalTime + durationMs }) else e) }
  if 400 ≤ statusCode then
    { st1 with errors := st1.errors + 1,
               endpoints := st1.endpoints.map (fun e =>
                 if e.1 == endpoint then (e.1, { e.2 with errors := e.2.errors + 1 }) else e) }
  else
    st1

/-- Two-digit zero padding for the fractional part of a fixed-point decimal. -/
def pad2 (r : Nat) : String :=
  if r < 10 then "0" ++ toString r else toString r

/-- Exact-rational model of `((errors / totalRequests) * 100).toFixed(2)` for
`totalRequests` nonzero: the ratio in hundredths of a percent rounded to the
nearest integer (half up), printed with two decimals.  The JavaScript double
pipeline can round the final digit differently on some counter values, so no
universally quantified theorem equates the program's formatted output with this
function; it agrees with the doubles exactly at the concrete points probed
below (0 of 0 and 3 of 10, the latter giving 30.00), and every output of
either formatter is a digit string containing a decimal point, never `NaN`. -/
def percentString (errors totalRequests : Nat) : String :=
  let n : Nat := (errors * 10000 * 2 + totalRequests) / (2 * totalRequests)
  toString (n / 100) ++ "." ++ pad2 (n % 100) ++ "%"

/-- The `errorRate` field of the stats response (`server.js` line 548):
`((apiStats.errors / apiStats.totalRequests) * 100).toFixed(2) + '%'`.  With
zero total requests the JavaScript division yields NaN (errors 0) or Infinity
(errors positive), which `toFixed` renders literally. -/
def errorRateString (errors totalRequests : Nat) : String :=
  if totalRequests = 0 then
    if errors = 0 then "NaN%" else "Infinity%"
  else percentString errors totalRequests

/-- Per-endpoint entry of the stats response (`server.js` lines 549-554);
`avgResponseTime` models `Math.round(totalTime / count)` as exact rounding
half-up (entries always have `count` at least 1, being created by
`recordRequest`). -/
structure EndpointView where
  endpoint : String
  requests : Nat
  errors : Nat
  avgResponseTime : Nat
deriving DecidableEq

/-- Body of the `GET /api/stats` response (`server.js` lines 544-555); the
uptime string is omitted. -/
structure StatsView where
  totalRequests : Nat
  totalErrors : Nat
  errorRate : String
  endpoints : List EndpointView
deriving DecidableEq

/-- The stats handler computation (`server.js` lines 542-558): totals, the
formatted error rate, and the endpoint entries sorted descending by request
count. -/
def snapshot (st : ApiStats) : StatsView :=
  { totalRequests := st.totalRequests
    totalErrors := st.errors
    errorRate := errorRateString st.errors st.totalRequests
    endpoints := sortDescBy (fun v => v.requests) (st.endpoints.map (fun e =>
      ⟨e.1, e.2.count, e.2.errors, (2 * e.2.totalTime + e.2.count) / (2 * e.2.count)⟩)) }

/-- Outcome of the API-key middleware (`server.js` lines 194-213): either the
request proceeds to the handler — with the matched key row in `req.apiKey`, or
anonymously when no key header was presented — or it is rejected with the 401
response with body error text `Invalid API key`. -/
inductive KeyDecision
  | proceed (key : Option ApiKeyRec)
  | invalidKey
deriving DecidableEq

/-- The lookup `SELECT * FROM api_keys WHERE key = ? AND active = 1`
(`server.js` line 201); the `key` column is UNIQUE, so `find?` returns the row
if any. -/
def findActiveKey (keys : List ApiKeyRec) (raw : String) : Option ApiKeyRec :=
  keys.find? (fun k => k.key == raw && k.active)

/-- The `validateApiKey` middleware (`server.js` lines 194-213): an absent
`x-api-key` header calls `next()` immediately (anonymous access); a presented
key that matches no active row is rejected with 401; a matching active row has
its `usage_count` incremented and `last_used` set before the handler runs. -/
def validateApiKey (header : Option String) (keys : List ApiKeyRec) (now : Nat) :
    KeyDecision × List ApiKeyRec :=
  match header with
  | none => (KeyDecision.proceed none, keys)
  | some raw =>
    match findActiveKey keys raw with
    | none => (KeyDecision.invalidKey, keys)
    | some k =>
      (KeyDecision.proceed (some k),
        keys.map (fun k2 =>
          if k2.id = k.id then { k2 with usageCount := k2.usageCount + 1, lastUsed := some now }
          else k2))

/-- The externally visible server state: the database plus the in-process
stats counters. -/
structure Gateway where
  db : Store
  stats : ApiStats
deriving DecidableEq

/-- Full pipeline of a `POST /api/jobs/accept` request, in the middleware
registration order of `server.js`: monitoring middleware (lines 39-48), then
`validateApiKey` (line 215), then the handler (lines 479-506).  `none` models
the 401 rejection (whose completion is metered with status 401); on success the
200 completion is metered. -/
def handleClaimJob (g : Gateway) (header : Option String) (bookingId contractorId : Nat)
    (price : Rat) (now durationMs : Nat) : Gateway × Option ClaimJobResult :=
  let stats1 := recordRequest g.stats "POST /api/jobs/accept"
  let vk := validateApiKey header g.db.apiKeys now
  match vk.1 with
  | KeyDecision.invalidKey =>
    (⟨{ g.db with apiKeys := vk.2 },
      recordCompletion stats1 "POST /api/jobs/accept" 401 durationMs⟩, none)
  | KeyDecision.proceed _ =>
    let r := claimJob { g.db with apiKeys := vk.2 } bookingId contractorId price now
    (⟨r.1, recordCompletion stats1 "POST /api/jobs/accept" 200 durationMs⟩, some r.2)

/-- Full pipeline of a `GET /api/stats` request: monitoring middleware, then
`validateApiKey`, then the stats handler.  The returned view is computed from
the counters as already incremented by the entry middleware, but before the
completion half runs (the wrapped `res.send` fires after the handler has built
the response object). -/
def handleGetStats (g : Gateway) (header : Option String) (now durationMs : Nat) :
    Gateway × Option StatsView :=
  let stats1 := recordRequest g.stats "GET /api/stats"
  let vk := validateApiKey header g.db.apiKeys now
  match vk.1 with
  | KeyDecision.invalidKey =>
    (⟨{ g.db with apiKeys := vk.2 },
      recordCompletion stats1 "GET /api/stats" 401 durationMs⟩, none)
  | KeyDecision.proceed _ =>
    (⟨{ g.db with apiKeys := vk.2 },
      recordCompletion stats1 "GET /api/stats" 200 durationMs⟩, some (snapshot stats1))

/-- Inserting into a list is a permutation of consing. -/
theorem perm_insertDescBy {α : Type} (f : α → Nat) (x : α) (l : List α) :
    List.Perm (insertDescBy f x l) (x :: l) := by
  induction l with
  | nil => exact List.Perm.refl _
  | cons y ys ih =>
    simp only [insertDescBy]
    split
    · exact List.Perm.refl _
    · exact (ih.cons y).trans (List.Perm.swap x y ys)

/-- The descending insertion sort permutes its input. -/
theorem perm_sortDescBy {α : Type} (f : α → Nat) (l : List α) :
    List.Perm (sortDescBy f l) l := by
  induction l with
  | nil => exact List.Perm.refl _
  | cons x xs ih => exact (perm_insertDescBy f x _).trans (ih.cons x)

/-- Insertion preserves sortedness for the descending key order. -/
theorem sorted_insertDescBy {α : Type} (f : α → Nat) (x : α) (l : List α)
    (h : l.Sorted (fun a b => f b ≤ f a)) :
    (insertDescBy f x l).Sorted (fun a b => f b ≤ f a) := by
  induction l with
  | nil => simp [insertDescBy]
  | cons y ys ih =>
    rw [List.sorted_cons] at h
    obtain ⟨hy, hys⟩ := h
    simp only [insertDescBy]
    split
    next hle =>
      rw [List.sorted_cons]
      refine ⟨?_, ?_⟩
      · intro b hb
        rcases List.mem_cons.mp hb with rfl | hbys
        · exact hle
        · exact le_trans (hy b hbys) hle
      · rw [List.sorted_cons]
        exact ⟨hy, hys⟩
    next hgt =>
      rw [List.sorted_cons]
      refine ⟨?_, ih hys⟩
      intro b hb
      rcases List.mem_cons.mp ((perm_insertDescBy f x ys).mem_iff.mp hb) with rfl | hbys
      · exact Nat.le_of_not_le hgt
      · exact hy b hbys

/-- The descending insertion sort sorts. -/
theorem sorted_sortDescBy {α : Type} (f : α → Nat) (l : List α) :
    (sortDescBy f l).Sorted (fun a b => f b ≤ f a) := by
  induction l with
  | nil => simp [sortDescBy]
  | cons x xs ih => exact sorted_insertDescBy f x _ ih

/-- Claim C5: `ListPendingJobs` (`GET /api/jobs/available`) returns exactly the
bookings whose status is pending and whose contractorId is null — as a
multiset, a permutation of that filter of the table, hence a booking is listed
iff it is a stored pending unclaimed booking — ordered newest-first by
`createdAt`. -/
theorem availableJobs_pending_unclaimed_newest_first (s : Store) :
    ((availableJobs s).map Prod.fst).Perm (s.bookings.filter pendingUnclaimed) ∧
    (∀ b : Booking, b ∈ (availableJobs s).map Prod.fst ↔
      b ∈ s.bookings ∧ b.status = BookingStatus.pending ∧ b.contractorId = none) ∧
    ((availableJobs s).map Prod.fst).Sorted
      (fun a b : Booking => b.createdAt ≤ a.createdAt) := by
  have hmap : (availableJobs s).map Prod.fst =
      sortDescBy (fun b => b.createdAt) (s.bookings.filter pendingUnclaimed) := by
    simp [availableJobs, List.map_map, Function.comp_def]
  refine ⟨?_, ?_, ?_⟩
  · rw [hmap]
    exact perm_sortDescBy _ _
  · intro b
    rw [hmap, (perm_sortDescBy _ _).mem_iff, List.mem_filter]
    simp [pendingUnclaimed]
  · rw [hmap]
    exact sorted_sortDescBy _ _

/-- A complete booking request, the fields of the README and Postman example. -/
def fullFields : BookingFields :=
  ⟨some "John", some "Doe", some "john.doe@example.com", some "555-1234",
    some "Plumbing", some "2025-06-25", some "10:00 AM",
    some "123 Main St", some "Leaky faucet"⟩

/-- The database after one successful `POST /api/bookings` at instant 0:
booking 1, pending, unclaimed. -/
def storeOneBooking : Store := (createBooking emptyStore fullFields 0).1

/-- The database after contractor 1 additionally claims booking 1 for 150:
booking 1 confirmed with contractor 1, one job row. -/
def storeClaimed : Store := (claimJob storeOneBooking 1 1 150 1).1

/-- Claim C1, failing run: on a booking that is already `confirmed` (with
contractor 1), a second `ClaimJob` with contractor 2 — which the claim says
must return `ConflictError` and leave status and contractorId unchanged — is
answered by the code with the success response for a fresh job id, and the
booking's contractorId is overwritten to the new claimant: of several claims on
one booking, every one succeeds, not exactly one. -/
theorem claimJob_accepts_already_confirmed_booking :
    (claimJob storeClaimed 1 2 140 2).2 = ClaimJobResult.success 2 ∧
    ((claimJob storeClaimed 1 2 140 2).1.bookings.map
      (fun b => (b.id, b.status, b.contractorId)))
      = [(1, BookingStatus.confirmed, some 2)] := by
  exact ⟨rfl, rfl⟩

/-- Claim C2, failing run: `ClaimJob` on booking id 999, which does not exist
in the (empty) store, returns the 200 success response with a fresh job id and
appends a job record referencing the missing booking (sqlite3 leaves foreign
keys unenforced and the handler never looks the booking up), instead of the
404 `NotFoundError` with no job record that the claim requires. -/
theorem claimJob_nonexistent_booking_succeeds :
    (claimJob emptyStore 999 1 100 0).2 = ClaimJobResult.success 1 ∧
    ((claimJob emptyStore 999 1 100 0).1.jobs.map
      (fun j => (j.bookingId, j.contractorId, j.status))) = [(999, 1, "accepted")] ∧
    (claimJob emptyStore 999 1 100 0).1.bookings = [] := by
  exact ⟨rfl, rfl, rfl⟩

/-- The database after booking 1 is created and then cancelled (cancel
modelled from the spec, `server.js` having no cancel route). -/
def storeCancelled : Store := (cancelBooking storeOneBooking 1).1

/-- Claim C3, failing run: booking 1 is `cancelled`, yet a subsequent
`ClaimJob` — which the claim says must be rejected or a no-op on a cancelled
booking — succeeds and moves the booking to `confirmed` with the claimant as
contractor. -/
theorem claimJob_confirms_cancelled_booking :
    (storeCancelled.bookings.map (fun b => b.status)) = [BookingStatus.cancelled] ∧
    (claimJob storeCancelled 1 7 100 2).2 = ClaimJobResult.success 1 ∧
    ((claimJob storeCancelled 1 7 100 2).1.bookings.map
      (fun b => (b.status, b.contractorId)))
      = [(BookingStatus.confirmed, some 7)] := by
  exact ⟨rfl, rfl, rfl⟩

/-- Claim C4, failing run: after contractor 1's successful claim sets booking
1's contractorId to 1, a second claim by contractor 2 overwrites it to 2 — the
claim says a contractorId, once set by a successful claim, is never overwritten
by any later operation. -/
theorem claimJob_overwrites_contractorId :
    ((claimJob storeOneBooking 1 1 150 1).1.bookings.map
      (fun b => b.contractorId)) = [some 1] ∧
    ((claimJob (claimJob storeOneBooking 1 1 150 1).1 1 2 140 2).1.bookings.map
      (fun b => b.contractorId)) = [some 2] := by
  exact ⟨rfl, rfl⟩

/-- Claim C6, failing point: the stats handler formats
`(errors / totalRequests) * 100` with `toFixed(2)` and no zero guard, so a
snapshot taken with `totalRequests = 0` reports the error rate as `NaN%` — the
claim requires 0 there — while the 10-requests 3-errors case does yield
`30.00%` as the claim states. -/
theorem errorRate_NaN_at_zero_requests :
    (snapshot ⟨0, [], 0⟩).errorRate = "NaN%" ∧
    (snapshot ⟨10, [], 3⟩).errorRate = "30.00%" := by
  exact ⟨rfl, rfl⟩

/-- The same booking request with a different service. -/
def fullFieldsElectrical : BookingFields := { fullFields with serviceName := some "Electrical" }

/-- Claim C7, counterexample to the final conjunct: the `POST /api/bookings`
response is `{success, bookingId, message}` only, not the persisted booking
record — two requests differing in their service field receive literally equal
responses while the records persisted for them differ, so the response cannot
be the persisted record. -/
theorem createBooking_response_is_not_the_record :
    (createBooking emptyStore fullFields 0).2 =
      (createBooking emptyStore fullFieldsElectrical 0).2 ∧
    (createBooking emptyStore fullFields 0).1.bookings ≠
      (createBooking emptyStore fullFieldsElectrical 0).1.bookings := by
  refine ⟨rfl, ?_⟩
  decide

/-- Claim C7 as amended: `CreateBooking` on a well-formed request assigns the
next id — fresh and strictly greater than every stored id, hence unique and
monotonically increasing — sets status pending and contractorId null, stores
the submitted customer, service, date, time, address and notes fields verbatim,
and returns a success response carrying the new booking's id (not the full
persisted record). -/
theorem createBooking_fresh_pending_verbatim (s : Store) (f : BookingFields) (now : Nat)
    (hreq : requiredPresent f = true)
    (hids : ∀ b0 ∈ s.bookings, b0.id < s.nextBookingId) :
    ∃ b : Booking,
      createBooking s f now =
        ({ s with bookings := s.bookings ++ [b], nextBookingId := s.nextBookingId + 1 },
          CreateBookingResult.success b.id) ∧
      b.id = s.nextBookingId ∧ (∀ b0 ∈ s.bookings, b0.id < b.id) ∧
      b.status = BookingStatus.pending ∧ b.contractorId = none ∧ b.createdAt = now ∧
      b.firstName = f.firstName ∧ b.lastName = f.lastName ∧ b.email = f.email ∧
      b.phone = f.phone ∧ b.service = f.serviceName ∧ b.date = f.preferredDate ∧
      b.time = f.preferredTime ∧ b.address = f.address ∧ b.notes = f.notes := by
  refine ⟨⟨s.nextBookingId, f.firstName, f.lastName, f.email, f.phone, f.serviceName,
    f.preferredDate, f.preferredTime, f.address, f.notes,
    BookingStatus.pending, none, now⟩,
    ?_, rfl, hids, rfl, rfl, rfl, rfl, rfl, rfl, rfl, rfl, rfl, rfl, rfl, rfl⟩
  simp [createBooking, hreq]

/-- Claim C7 witness: the amended statement instantiated on the empty store
and the example request. -/
theorem createBooking_fresh_pending_verbatim_witness :
    ∃ b : Booking,
      createBooking emptyStore fullFields 0 =
        ({ emptyStore with bookings := emptyStore.bookings ++ [b], nextBookingId := emptyStore.nextBookingId + 1 },
          CreateBookingResult.success b.id) ∧
      b.id = emptyStore.nextBookingId ∧ (∀ b0 ∈ emptyStore.bookings, b0.id < b.id) ∧
      b.status = BookingStatus.pending ∧ b.contractorId = none ∧ b.createdAt = 0 ∧
      b.firstName = fullFields.firstName ∧ b.lastName = fullFields.lastName ∧
      b.email = fullFields.email ∧ b.phone = fullFields.phone ∧
      b.service = fullFields.serviceName ∧ b.date = fullFields.preferredDate ∧
      b.time = fullFields.preferredTime ∧ b.address = fullFields.address ∧
      b.notes = fullFields.notes :=
  createBooking_fresh_pending_verbatim emptyStore fullFields 0 rfl
    (by simp [emptyStore])

/-- Claim C8: a request with no API key proceeds as anonymous access and the
claim handler runs; a presented key is rejected with the 401 `Invalid API key`
response exactly when no active row matches it — and then the endpoint handler
does not run, the bookings and jobs tables being left untouched; a presented
key matching an active row proceeds to the handler. -/
theorem apiKey_missing_anonymous_invalid_rejected (g : Gateway) (raw : String)
    (bookingId contractorId : Nat) (price : Rat) (now durationMs : Nat) :
    ((handleClaimJob g none bookingId contractorId price now durationMs).2 =
      some (claimJob g.db bookingId contractorId price now).2) ∧
    ((∀ k ∈ g.db.apiKeys, ¬(k.key = raw ∧ k.active = true)) →
      (handleClaimJob g (some raw) bookingId contractorId price now durationMs).2 = none ∧
      (handleClaimJob g (some raw) bookingId contractorId price now
        durationMs).1.db.bookings = g.db.bookings ∧
      (handleClaimJob g (some raw) bookingId contractorId price now
        durationMs).1.db.jobs = g.db.jobs) ∧
    ((∃ k ∈ g.db.apiKeys, k.key = raw ∧ k.active = true) →
      (handleClaimJob g (some raw) bookingId contractorId price now durationMs).2 ≠
        none) := by
  refine ⟨rfl, ?_, ?_⟩
  · intro h
    have hfind : findActiveKey g.db.apiKeys raw = none := by
      rw [findActiveKey, List.find?_eq_none]
      intro k hk
      have := h k hk
      simp only [Bool.and_eq_true, beq_iff_eq, not_and]
      intro h1 h2
      exact this ⟨h1, h2⟩
    refine ⟨?_, ?_, ?_⟩ <;>
      simp [handleClaimJob, validateApiKey, hfind]
  · intro ⟨k, hk, hkey, hact⟩
    have hfind : (findActiveKey g.db.apiKeys raw).isSome = true := by
      rw [findActiveKey, List.find?_isSome]
      exact ⟨k, hk, by simp [hkey, hact]⟩
    cases heq : findActiveKey g.db.apiKeys raw with
    | none => rw [heq] at hfind; simp at hfind
    | some k2 => simp [handleClaimJob, validateApiKey, heq]

/-- A gateway whose database holds a single, deactivated API key. -/
def keyedGateway : Gateway :=
  ⟨⟨[], [], [⟨1, "lk_abc", "My Application", "developer@example.com", 0, none, false⟩], 1, 1⟩,
    ⟨0, [], 0⟩⟩

/-- Claim C8 witness: presenting the inactive key is rejected with 401 and the
claim handler does not run — at a concrete gateway and request. -/
theorem apiKey_invalid_rejected_witness :
    (handleClaimJob keyedGateway (some "lk_abc") 1 1 150 0 0).2 = none ∧
    (handleClaimJob keyedGateway (some "lk_abc") 1 1 150 0 0).1.db.bookings =
      keyedGateway.db.bookings ∧
    (handleClaimJob keyedGateway (some "lk_abc") 1 1 150 0 0).1.db.jobs =
      keyedGateway.db.jobs :=
  (apiKey_missing_anonymous_invalid_rejected keyedGateway "lk_abc" 1 1 150 0 0).2.1
    (by decide)

/-- A booking request missing the required first-name field. -/
def missingFirstName : BookingFields := { fullFields with firstName := none }

/-- Claim C9, counterexample: `POST /api/bookings` with the required
first-name field absent is not rejected by any validation — the body goes
straight to the INSERT, whose `NOT NULL` violation surfaces as the 500
`Failed to create booking` storage response, not a `ValidationError`. -/
theorem createBooking_missing_field_is_storage_500 :
    createBooking emptyStore missingFirstName 0 =
      (emptyStore, CreateBookingResult.storageError) := rfl

/-- Claim C9 as amended: `CreateBooking` performs no input validation; a
request missing a required customer or service field is passed to the INSERT,
fails the schema's NOT NULL constraint, and is rejected with the 500 storage
error rather than a ValidationError; the failed insert is atomic, so no booking
is created and no state mutation occurs. -/
theorem createBooking_invalid_input_500_no_mutation (s : Store) (f : BookingFields)
    (now : Nat) (h : requiredPresent f = false) :
    createBooking s f now = (s, CreateBookingResult.storageError) := by
  simp [createBooking, h]

/-- A booking request missing the required address field. -/
def missingAddress : BookingFields := { fullFields with address := none }

/-- Claim C9 witness: the amended statement at a concrete store and a request
missing its address. -/
theorem createBooking_invalid_input_500_no_mutation_witness :
    createBooking storeOneBooking missingAddress 5 =
      (storeOneBooking, CreateBookingResult.storageError) :=
  createBooking_invalid_input_500_no_mutation storeOneBooking missingAddress 5 rfl

/-- Division-branch outputs always contain a decimal point between the whole
and fractional digits, so none of them is the `NaN%` string. -/
theorem percentString_ne_NaN (errors totalRequests : Nat) :
    percentString errors totalRequests ≠ "NaN%" := by
  intro heq
  have hdot : ('.' : Char) ∈ (percentString errors totalRequests).data := by
    simp [percentString, String.data_append]
  rw [heq] at hdot
  exact absurd hdot (by decide)

/-- Claim C10: whenever a `GET /api/stats` request produces a stats view, that
view reports at least one total request — the monitoring middleware increments
`totalRequests` (and the endpoint count) before any handler runs, and the stats
handler reads the already-incremented counter — so the zero-requests division
branch (the `NaN` case of the error-rate computation) is unreachable through
the public endpoint and the reported rate is never the `NaN%` string. -/
theorem statsView_totalRequests_positive (g : Gateway) (header : Option String)
    (now durationMs : Nat) (v : StatsView)
    (h : (handleGetStats g header now durationMs).2 = some v) :
    1 ≤ v.totalRequests ∧ v.totalRequests = g.stats.totalRequests + 1 ∧
    v.errorRate ≠ "NaN%" := by
  cases hval : (validateApiKey header g.db.apiKeys now).1 with
  | invalidKey =>
    exfalso
    simp [handleGetStats, hval] at h
  | proceed k =>
    simp only [handleGetStats, hval] at h
    injection h with h
    subst h
    refine ⟨?_, ?_, ?_⟩
    · simp [snapshot, recordRequest]
      split <;> simp
    · simp [snapshot, recordRequest]
      split <;> simp
    · simp only [snapshot, recordRequest]
      split <;>
        simp [errorRateString, percentString_ne_NaN]

/-- A gateway at process start: empty database, zeroed counters. -/
def freshGateway : Gateway := ⟨emptyStore, ⟨0, [], 0⟩⟩

/-- Claim C10 witness: an anonymous stats request against the fresh gateway
produces a view, and that view reports one total request and an error rate that
is not the `NaN%` string. -/
theorem statsView_totalRequests_positive_witness :
    1 ≤ (snapshot (recordRequest freshGateway.stats "GET /api/stats")).totalRequests ∧
    (snapshot (recordRequest freshGateway.stats "GET /api/stats")).totalRequests =
      freshGateway.stats.totalRequests + 1 ∧
    (snapshot (recordRequest freshGateway.stats "GET /api/stats")).errorRate ≠ "NaN%" :=
  statsView_totalRequests_positive freshGateway none 0 0
    (snapshot (recordRequest freshGateway.stats "GET /api/stats")) rfl

end LeilaApi
